import Mathlib

/-!
Verification of `scripts/generate-icon.py` (Berrry Joyful icon generator).

The script's `draw_joycon_pair(size, filename)` computes an integer layout
from a rational scale factor `size / 18`, rasterizes two rounded rectangles
(opaque black) and ten circular cutouts (fully transparent) onto an RGBA
canvas, and saves it.  We embed the layout arithmetic exactly (Python's
true division is modelled by exact rational arithmetic; Python `int()` is
truncation toward zero; Python `//` is floor division) and model the
imaging library's filled-shape rasterization as the mathematical regions
the spec describes (the library's code is not part of this repository).

Scope of the rational model of the float arithmetic: Python evaluates
`size / 18` and the products `6 * scale`, `1.5 * scale`, … in IEEE double
precision.  The exact rational values agree with the doubles for every
size from 1 up to 4 000 000 (checked exhaustively against IEEE semantics),
and the universally quantified layout theorems below are stated within
that range; at astronomically large sizes the double rounding diverges
from the exact rationals, and for |size| ≥ 18 · (2^1024 − 2^970) the
division itself overflows the double range and raises OverflowError,
which `scaleStep` models.
-/

set_option maxHeartbeats 1000000
set_option maxRecDepth 100000

/-- An RGBA pixel: (red, green, blue, alpha). -/
abbrev Pixel := ℤ × ℤ × ℤ × ℤ

/-- The fill used for cutouts in the source: `transparent = (0, 0, 0, 0)`. -/
def transparent : Pixel := (0, 0, 0, 0)

/-- The fill used for the bodies in the source: `color = (0, 0, 0, 255)`. -/
def color : Pixel := (0, 0, 0, 255)

/-- Alpha channel of a pixel. -/
def alphaOf (p : Pixel) : ℤ := p.2.2.2

/-- A canvas: width, height, and the pixel at each integer coordinate. -/
structure Canvas where
  width : ℕ
  height : ℕ
  pix : ℤ → ℤ → Pixel

/-- Python `int(q)`: truncation toward zero. -/
def pyInt (q : ℚ) : ℤ := if 0 ≤ q then ⌊q⌋ else ⌈q⌉

/-- Source line `scale = size / 18`: Python true division, modelled as the
exact rational quotient.  The program computes an IEEE double; the exact
value coincides with the double-evaluated layout for every size in the
range 1..4000000 used by the theorems below (see the module docstring),
and the overflow failure of the division at huge |size| is modelled
separately by `scaleStep`. -/
def scaleQ (size : ℤ) : ℚ := (size : ℚ) / 18

/-- Source line `scale = size / 18`, error behaviour: converting the true
quotient of two Python ints to an IEEE double raises OverflowError —
modelled as `none` — exactly when the quotient's magnitude rounds beyond
the largest finite double, i.e. when 18 · (2^1024 − 2^970) ≤ |size|;
within range the division succeeds with the exact value `scaleQ size`. -/
def scaleStep (size : ℤ) : Option ℚ :=
  if |size| < 18 * (2 ^ 1024 - 2 ^ 970) then some (scaleQ size) else none

/-- Source line `jc_width = int(6 * scale)`. -/
def jc_width (size : ℤ) : ℤ := pyInt (6 * scaleQ size)

/-- Source line `jc_height = int(14 * scale)`. -/
def jc_height (size : ℤ) : ℤ := pyInt (14 * scaleQ size)

/-- Source line `corner_radius = int(2 * scale)`. -/
def corner_radius (size : ℤ) : ℤ := pyInt (2 * scaleQ size)

/-- Source line `gap = int(1 * scale)`. -/
def gap (size : ℤ) : ℤ := pyInt (1 * scaleQ size)

/-- Source line `total_width = jc_width * 2 + gap`. -/
def total_width (size : ℤ) : ℤ := jc_width size * 2 + gap size

/-- Source line `start_x = (size - total_width) // 2` (floor division). -/
def start_x (size : ℤ) : ℤ := (size - total_width size).fdiv 2

/-- Source line `start_y = (size - jc_height) // 2` (floor division). -/
def start_y (size : ℤ) : ℤ := (size - jc_height size).fdiv 2

/-- Source line `stick_radius = int(1.5 * scale)`. -/
def stick_radius (size : ℤ) : ℤ := pyInt (1.5 * scaleQ size)

/-- Source line `btn_size = max(1, int(0.8 * scale))`. -/
def btn_size (size : ℤ) : ℤ := max 1 (pyInt (0.8 * scaleQ size))

/-- Source line `btn_offset = int(1.5 * scale)`. -/
def btn_offset (size : ℤ) : ℤ := pyInt (1.5 * scaleQ size)

/-- Source line `left_x = start_x`. -/
def left_x (size : ℤ) : ℤ := start_x size

/-- Source line `right_x = start_x + jc_width + gap`. -/
def right_x (size : ℤ) : ℤ := start_x size + jc_width size + gap size

/-- Source line `left_stick_x = left_x + jc_width // 2`. -/
def left_stick_x (size : ℤ) : ℤ := left_x size + (jc_width size).fdiv 2

/-- Source line `left_stick_y = start_y + int(4 * scale)`. -/
def left_stick_y (size : ℤ) : ℤ := start_y size + pyInt (4 * scaleQ size)

/-- Source line `left_btn_center_x = left_x + jc_width // 2`. -/
def left_btn_center_x (size : ℤ) : ℤ := left_x size + (jc_width size).fdiv 2

/-- Source line `left_btn_center_y = start_y + jc_height - int(4 * scale)`. -/
def left_btn_center_y (size : ℤ) : ℤ :=
  start_y size + jc_height size - pyInt (4 * scaleQ size)

/-- Source line `right_stick_x = right_x + jc_width // 2`. -/
def right_stick_x (size : ℤ) : ℤ := right_x size + (jc_width size).fdiv 2

/-- Source line `right_stick_y = start_y + jc_height - int(4 * scale)`. -/
def right_stick_y (size : ℤ) : ℤ :=
  start_y size + jc_height size - pyInt (4 * scaleQ size)

/-- Source line `btn_center_x = right_x + jc_width // 2` (right-hand face buttons). -/
def btn_center_x (size : ℤ) : ℤ := right_x size + (jc_width size).fdiv 2

/-- Source line `btn_center_y = start_y + int(4 * scale)`. -/
def btn_center_y (size : ℤ) : ℤ := start_y size + pyInt (4 * scaleQ size)

/-- Modelled from the spec: the imaging library's filled ellipse inscribed in
the bounding box `[x0, y0, x1, y1]` (box endpoints included); the library's
own rasterizer is not part of this repository.  Point membership in the
inscribed ellipse, written with integer arithmetic after clearing
denominators.  When the box is a square this is exactly the closed disc
`(x - cx)^2 + (y - cy)^2 ≤ r^2` (all ellipses the script draws are circles). -/
def inEllipse (x0 y0 x1 y1 x y : ℤ) : Bool :=
  decide ((2 * x - (x0 + x1)) ^ 2 * (y1 - y0) ^ 2
      + (2 * y - (y0 + y1)) ^ 2 * (x1 - x0) ^ 2
      ≤ (x1 - x0) ^ 2 * (y1 - y0) ^ 2)

/-- Modelled from the spec: the imaging library's filled rounded rectangle
over `[x0, y0, x1, y1]` with corner radius `r` (box endpoints included):
the rectangle minus the four corner squares outside the quarter discs. -/
def inRoundedRect (x0 y0 x1 y1 r x y : ℤ) : Bool :=
  decide (x0 ≤ x ∧ x ≤ x1 ∧ y0 ≤ y ∧ y ≤ y1 ∧
    (x < x0 + r ∧ y < y0 + r → (x - (x0 + r)) ^ 2 + (y - (y0 + r)) ^ 2 ≤ r ^ 2) ∧
    (x1 - r < x ∧ y < y0 + r → (x - (x1 - r)) ^ 2 + (y - (y0 + r)) ^ 2 ≤ r ^ 2) ∧
    (x < x0 + r ∧ y1 - r < y → (x - (x0 + r)) ^ 2 + (y - (y1 - r)) ^ 2 ≤ r ^ 2) ∧
    (x1 - r < x ∧ y1 - r < y → (x - (x1 - r)) ^ 2 + (y - (y1 - r)) ^ 2 ≤ r ^ 2))

/-- Modelled from the spec: `draw.ellipse([x0, y0, x1, y1], fill=f)` —
overwrite every pixel of the inscribed ellipse with `f` (no blending). -/
def fillEllipse (x0 y0 x1 y1 : ℤ) (f : Pixel) (c : Canvas) : Canvas :=
  { c with pix := fun x y => if inEllipse x0 y0 x1 y1 x y then f else c.pix x y }

/-- Modelled from the spec: `draw.rounded_rectangle([x0, y0, x1, y1],
radius=r, fill=f)` — overwrite every pixel of the region with `f`. -/
def fillRoundedRect (x0 y0 x1 y1 r : ℤ) (f : Pixel) (c : Canvas) : Canvas :=
  { c with pix := fun x y => if inRoundedRect x0 y0 x1 y1 r x y then f else c.pix x y }

/-- Modelled from the spec: `Image.new('RGBA', (size, size), (0, 0, 0, 0))` —
a size × size canvas, every pixel fully transparent (empty for size ≤ 0). -/
def newCanvas (size : ℤ) : Canvas :=
  { width := size.toNat, height := size.toNat, pix := fun _ _ => transparent }

/-- The source's button loop offsets `[(0, -btn_offset), (0, btn_offset),
(-btn_offset, 0), (btn_offset, 0)]`. -/
def btnOffsets (bo : ℤ) : List (ℤ × ℤ) := [(0, -bo), (0, bo), (-bo, 0), (bo, 0)]

/-- The source's `for dx, dy in [...]` loop: four transparent circular
cutouts of half-size `bs` around `(cx, cy)` at offsets `btnOffsets bo`. -/
def drawButtons (cx cy bs bo : ℤ) (c : Canvas) : Canvas :=
  (btnOffsets bo).foldl
    (fun acc d =>
      fillEllipse (cx + d.1 - bs) (cy + d.2 - bs) (cx + d.1 + bs) (cy + d.2 + bs)
        transparent acc) c

/-- `draw_joycon_pair(size, filename)` up to the point where the canvas is
saved: new transparent canvas; left body; right body; left stick cutout;
left d-pad cutouts; right stick cutout; right face-button cutouts
(the source's drawing order, innermost first). -/
def draw_joycon_pair (size : ℤ) : Canvas :=
  drawButtons (btn_center_x size) (btn_center_y size) (btn_size size) (btn_offset size)
    (fillEllipse (right_stick_x size - stick_radius size)
      (right_stick_y size - stick_radius size)
      (right_stick_x size + stick_radius size)
      (right_stick_y size + stick_radius size) transparent
      (drawButtons (left_btn_center_x size) (left_btn_center_y size)
        (btn_size size) (btn_offset size)
        (fillEllipse (left_stick_x size - stick_radius size)
          (left_stick_y size - stick_radius size)
          (left_stick_x size + stick_radius size)
          (left_stick_y size + stick_radius size) transparent
          (fillRoundedRect (right_x size) (start_y size)
            (right_x size + jc_width size) (start_y size + jc_height size)
            (corner_radius size) color
            (fillRoundedRect (left_x size) (start_y size)
              (left_x size + jc_width size) (start_y size + jc_height size)
              (corner_radius size) color (newCanvas size))))))

/-- Membership in one of the four button cutout circles drawn by the loop. -/
def inButtons (cx cy bs bo x y : ℤ) : Bool :=
  (btnOffsets bo).any fun d =>
    inEllipse (cx + d.1 - bs) (cy + d.2 - bs) (cx + d.1 + bs) (cy + d.2 + bs) x y

/-- Membership in any of the ten cutout shapes the script draws:
left stick, left d-pad buttons, right stick, right face buttons. -/
def inCutout (size x y : ℤ) : Bool :=
  inEllipse (left_stick_x size - stick_radius size)
      (left_stick_y size - stick_radius size)
      (left_stick_x size + stick_radius size)
      (left_stick_y size + stick_radius size) x y
  || inButtons (left_btn_center_x size) (left_btn_center_y size)
      (btn_size size) (btn_offset size) x y
  || inEllipse (right_stick_x size - stick_radius size)
      (right_stick_y size - stick_radius size)
      (right_stick_x size + stick_radius size)
      (right_stick_y size + stick_radius size) x y
  || inButtons (btn_center_x size) (btn_center_y size)
      (btn_size size) (btn_offset size) x y

/-- Number of pixels of the canvas whose alpha channel is positive. -/
def nonTransparentCount (c : Canvas) : ℕ :=
  ((List.range c.height).map fun y =>
    (List.range c.width).countP fun x => decide (0 < alphaOf (c.pix x y))).sum

/-- A pixel is either fully transparent or opaque black. -/
def blackOrClear (p : Pixel) : Prop := p = transparent ∨ p = color

lemma pyInt_eq_floor {q : ℚ} (h : 0 ≤ q) : pyInt q = ⌊q⌋ := by
  unfold pyInt
  exact if_pos h

lemma jc_width_18 : jc_width 18 = 6 := by norm_num [jc_width, pyInt, scaleQ]

lemma jc_height_18 : jc_height 18 = 14 := by norm_num [jc_height, pyInt, scaleQ]

lemma corner_radius_18 : corner_radius 18 = 2 := by
  norm_num [corner_radius, pyInt, scaleQ]

lemma gap_18 : gap 18 = 1 := by norm_num [gap, pyInt, scaleQ]

lemma stick_radius_18 : stick_radius 18 = 1 := by
  norm_num [stick_radius, pyInt, scaleQ]

lemma btn_size_18 : btn_size 18 = 1 := by norm_num [btn_size, pyInt, scaleQ]

lemma btn_offset_18 : btn_offset 18 = 1 := by norm_num [btn_offset, pyInt, scaleQ]

lemma total_width_18 : total_width 18 = 13 := by
  simp only [total_width, jc_width_18, gap_18]
  decide

lemma pyInt4_18 : pyInt (4 * scaleQ 18) = 4 := by norm_num [pyInt, scaleQ]

lemma start_x_18 : start_x 18 = 2 := by
  simp only [start_x, total_width_18]
  decide

lemma start_y_18 : start_y 18 = 2 := by
  simp only [start_y, jc_height_18]
  decide

lemma left_x_18 : left_x 18 = 2 := by simp only [left_x, start_x_18]

lemma right_x_18 : right_x 18 = 9 := by
  simp only [right_x, start_x_18, jc_width_18, gap_18]
  decide

lemma left_stick_x_18 : left_stick_x 18 = 5 := by
  simp only [left_stick_x, left_x_18, jc_width_18]
  decide

lemma left_stick_y_18 : left_stick_y 18 = 6 := by
  simp only [left_stick_y, start_y_18, pyInt4_18]
  decide

lemma left_btn_center_x_18 : left_btn_center_x 18 = 5 := by
  simp only [left_btn_center_x, left_x_18, jc_width_18]
  decide

lemma left_btn_center_y_18 : left_btn_center_y 18 = 12 := by
  simp only [left_btn_center_y, start_y_18, jc_height_18, pyInt4_18]
  decide

lemma right_stick_x_18 : right_stick_x 18 = 12 := by
  simp only [right_stick_x, right_x_18, jc_width_18]
  decide

lemma right_stick_y_18 : right_stick_y 18 = 12 := by
  simp only [right_stick_y, start_y_18, jc_height_18, pyInt4_18]
  decide

lemma btn_center_x_18 : btn_center_x 18 = 12 := by
  simp only [btn_center_x, right_x_18, jc_width_18]
  decide

lemma btn_center_y_18 : btn_center_y 18 = 6 := by
  simp only [btn_center_y, start_y_18, pyInt4_18]
  decide

lemma jc_width_36 : jc_width 36 = 12 := by norm_num [jc_width, pyInt, scaleQ]

lemma jc_height_36 : jc_height 36 = 28 := by norm_num [jc_height, pyInt, scaleQ]

lemma corner_radius_36 : corner_radius 36 = 4 := by
  norm_num [corner_radius, pyInt, scaleQ]

lemma gap_36 : gap 36 = 2 := by norm_num [gap, pyInt, scaleQ]

lemma stick_radius_36 : stick_radius 36 = 3 := by
  norm_num [stick_radius, pyInt, scaleQ]

lemma btn_size_36 : btn_size 36 = 1 := by norm_num [btn_size, pyInt, scaleQ]

lemma btn_offset_36 : btn_offset 36 = 3 := by norm_num [btn_offset, pyInt, scaleQ]

lemma total_width_36 : total_width 36 = 26 := by
  simp only [total_width, jc_width_36, gap_36]
  decide

/-- C1 (counterexample): at size 19 the code's stick radius is
`int(1.5 * 19/18) = 1`, while the claimed `round(1.5 * 19/18)` is 2,
so the measurements are not the rounded scaled constants. -/
theorem c1_round_counterexample :
    stick_radius 19 = 1 ∧ round ((1.5 : ℚ) * ((19 : ℚ) / 18)) = 2 := by
  constructor
  · norm_num [stick_radius, pyInt, scaleQ]
  · norm_num [round_eq]

/-- C1 (amended): for every positive size up to 1000000 — a range on which
the program's double arithmetic agrees exactly with the rational model and
which contains the sizes actually used — each derived measurement equals
the FLOOR (Python `int` truncation, equal to floor on nonnegative values)
of the scaled design constant: body width ⌊6s⌋, height ⌊14s⌋, corner
radius ⌊2s⌋, gap ⌊1s⌋, stick radius ⌊1.5s⌋, button half-size
max(1, ⌊0.8s⌋), button offset ⌊1.5s⌋, where s = size / 18.  (At larger
sizes the doubles diverge from these exact values: at size 3300000000000000
the program computes body height 2566666666666667, not the exact floor
2566666666666666.) -/
theorem c1_measurements_floor (size : ℤ) (h : 0 < size)
    (hb : size ≤ 1000000) :
    jc_width size = ⌊(6 : ℚ) * ((size : ℚ) / 18)⌋ ∧
    jc_height size = ⌊(14 : ℚ) * ((size : ℚ) / 18)⌋ ∧
    corner_radius size = ⌊(2 : ℚ) * ((size : ℚ) / 18)⌋ ∧
    gap size = ⌊(1 : ℚ) * ((size : ℚ) / 18)⌋ ∧
    stick_radius size = ⌊(1.5 : ℚ) * ((size : ℚ) / 18)⌋ ∧
    btn_size size = max 1 ⌊(0.8 : ℚ) * ((size : ℚ) / 18)⌋ ∧
    btn_offset size = ⌊(1.5 : ℚ) * ((size : ℚ) / 18)⌋ := by
  have hs : (0 : ℚ) ≤ (size : ℚ) / 18 := by
    apply div_nonneg _ (by norm_num)
    exact_mod_cast h.le
  refine ⟨?_, ?_, ?_, ?_, ?_, ?_, ?_⟩ <;>
    simp only [jc_width, jc_height, corner_radius, gap, stick_radius, btn_size,
      btn_offset, scaleQ] <;>
    rw [pyInt_eq_floor (mul_nonneg (by norm_num) hs)]

/-- C1 (witness): the amended statement instantiated at size 18. -/
theorem c1_measurements_floor_witness :
    0 < (18 : ℤ) ∧ (18 : ℤ) ≤ 1000000 ∧
    (jc_width 18 = ⌊(6 : ℚ) * ((18 : ℚ) / 18)⌋ ∧
     jc_height 18 = ⌊(14 : ℚ) * ((18 : ℚ) / 18)⌋ ∧
     corner_radius 18 = ⌊(2 : ℚ) * ((18 : ℚ) / 18)⌋ ∧
     gap 18 = ⌊(1 : ℚ) * ((18 : ℚ) / 18)⌋ ∧
     stick_radius 18 = ⌊(1.5 : ℚ) * ((18 : ℚ) / 18)⌋ ∧
     btn_size 18 = max 1 ⌊(0.8 : ℚ) * ((18 : ℚ) / 18)⌋ ∧
     btn_offset 18 = ⌊(1.5 : ℚ) * ((18 : ℚ) / 18)⌋) :=
  ⟨by decide, by decide, c1_measurements_floor 18 (by decide) (by decide)⟩

/-- C2 (counterexample): between sizes 18 and 36 the stick radius goes
from 1 to 3, the button half-size from 1 to 1, and the button offset from
1 to 3 — none of these equals exactly 2 times its size-18 value. -/
theorem c2_exact_doubling_counterexample :
    stick_radius 36 ≠ 2 * stick_radius 18 ∧
    btn_size 36 ≠ 2 * btn_size 18 ∧
    btn_offset 36 ≠ 2 * btn_offset 18 := by
  refine ⟨?_, ?_, ?_⟩ <;>
    simp only [stick_radius_18, stick_radius_36, btn_size_18, btn_size_36,
      btn_offset_18, btn_offset_36] <;>
    decide

/-- C2 (amended): the canvases for sizes 18 and 36 are in an exact 1:2
ratio of linear dimensions, and body width, body height, corner radius and
gap each double exactly from size 18 to size 36; stick radius, button
half-size and button offset do not (see the counterexample). -/
theorem c2_doubling_amended :
    (draw_joycon_pair 36).width = 2 * (draw_joycon_pair 18).width ∧
    (draw_joycon_pair 36).height = 2 * (draw_joycon_pair 18).height ∧
    jc_width 36 = 2 * jc_width 18 ∧
    jc_height 36 = 2 * jc_height 18 ∧
    corner_radius 36 = 2 * corner_radius 18 ∧
    gap 36 = 2 * gap 18 := by
  refine ⟨rfl, rfl, ?_, ?_, ?_, ?_⟩ <;>
    simp only [jc_width_18, jc_width_36, jc_height_18, jc_height_36,
      corner_radius_18, corner_radius_36, gap_18, gap_36] <;>
    decide

/-- C3: at the two sizes actually used, the total width of the pair
(2 × body width + gap) does not exceed the canvas size: 13 ≤ 18 and
26 ≤ 36, so the pair fits horizontally. -/
theorem c3_pair_fits : total_width 18 ≤ 18 ∧ total_width 36 ≤ 36 := by
  constructor
  · rw [total_width_18]
    decide
  · rw [total_width_36]
    decide

/-- C5: for every positive size, the button half-size
`max(1, int(0.8 * scale))` is at least 1. -/
theorem c5_btn_min (size : ℤ) (h : 0 < size) : 1 ≤ btn_size size :=
  le_max_left _ _

/-- C5 (witness): the minimum button half-size at size 18. -/
theorem c5_btn_min_witness : 0 < (18 : ℤ) ∧ 1 ≤ btn_size 18 :=
  ⟨by decide, c5_btn_min 18 (by decide)⟩

/-- C8: rendering is deterministic — any two canvases produced by
`draw_joycon_pair` at the same size coincide pixel for pixel (the drawing
step consults nothing but `size`; byte-identity of the saved files then
follows for a deterministic encoder). -/
theorem c8_deterministic (size : ℤ) (c1 c2 : Canvas)
    (h1 : c1 = draw_joycon_pair size) (h2 : c2 = draw_joycon_pair size) :
    c1 = c2 :=
  h1.trans h2.symm

/-- C8 (witness): two runs at size 18 agree. -/
theorem c8_deterministic_witness : draw_joycon_pair 18 = draw_joycon_pair 18 :=
  c8_deterministic 18 (draw_joycon_pair 18) (draw_joycon_pair 18) rfl rfl

lemma fillEllipse_pix_mem {x0 y0 x1 y1 x y : ℤ} {f : Pixel} {c : Canvas}
    (h : inEllipse x0 y0 x1 y1 x y = true) :
    (fillEllipse x0 y0 x1 y1 f c).pix x y = f := by
  simp [fillEllipse, h]

lemma fillEllipse_pix_trans {x0 y0 x1 y1 x y : ℤ} {c : Canvas}
    (h : c.pix x y = transparent) :
    (fillEllipse x0 y0 x1 y1 transparent c).pix x y = transparent := by
  simp only [fillEllipse]
  split
  · rfl
  · exact h

lemma drawButtons_pix_mem {cx cy bs bo x y : ℤ} {c : Canvas}
    (h : inButtons cx cy bs bo x y = true) :
    (drawButtons cx cy bs bo c).pix x y = transparent := by
  simp only [inButtons, btnOffsets, List.any_cons, List.any_nil,
    Bool.or_eq_true, Bool.or_false] at h
  simp only [drawButtons, btnOffsets, List.foldl_cons, List.foldl_nil]
  rcases h with h | h | h | h
  · exact fillEllipse_pix_trans (fillEllipse_pix_trans
      (fillEllipse_pix_trans (fillEllipse_pix_mem h)))
  · exact fillEllipse_pix_trans (fillEllipse_pix_trans (fillEllipse_pix_mem h))
  · exact fillEllipse_pix_trans (fillEllipse_pix_mem h)
  · exact fillEllipse_pix_mem h

lemma drawButtons_pix_trans {cx cy bs bo x y : ℤ} {c : Canvas}
    (h : c.pix x y = transparent) :
    (drawButtons cx cy bs bo c).pix x y = transparent := by
  simp only [drawButtons, btnOffsets, List.foldl_cons, List.foldl_nil]
  exact fillEllipse_pix_trans (fillEllipse_pix_trans
    (fillEllipse_pix_trans (fillEllipse_pix_trans h)))

/-- C6: every pixel inside any of the ten cutout shapes ends up exactly
`(0, 0, 0, 0)` in the finished canvas — the cutouts overwrite whatever
opaque value the bodies put there, with no blending. -/
theorem c6_cutout_overwrite (size x y : ℤ) (h : inCutout size x y = true) :
    (draw_joycon_pair size).pix x y = transparent := by
  simp only [inCutout, Bool.or_eq_true] at h
  rw [draw_joycon_pair]
  rcases h with ((h | h) | h) | h
  · exact drawButtons_pix_trans (fillEllipse_pix_trans
      (drawButtons_pix_trans (fillEllipse_pix_mem h)))
  · exact drawButtons_pix_trans (fillEllipse_pix_trans (drawButtons_pix_mem h))
  · exact drawButtons_pix_trans (fillEllipse_pix_mem h)
  · exact drawButtons_pix_mem h

/-- C6 (witness): at size 18 the pixel (5, 6) — the centre of the left
stick cutout, previously covered by the opaque left body — is fully
transparent in the finished canvas. -/
theorem c6_cutout_overwrite_witness :
    inCutout 18 5 6 = true ∧ (draw_joycon_pair 18).pix 5 6 = transparent := by
  have h : inCutout 18 5 6 = true := by
    simp only [inCutout, left_stick_x_18, left_stick_y_18, stick_radius_18,
      left_btn_center_x_18, left_btn_center_y_18, btn_size_18, btn_offset_18,
      right_stick_x_18, right_stick_y_18, btn_center_x_18, btn_center_y_18]
    decide
  exact ⟨h, c6_cutout_overwrite 18 5 6 h⟩

/-- C4: for positive size the allocated canvas is exactly size × size,
every pixel starts fully transparent, and the drawing steps never change
the canvas dimensions. -/
theorem c4_canvas_allocation (size : ℤ) (h : 0 < size) :
    ((newCanvas size).width : ℤ) = size ∧
    ((newCanvas size).height : ℤ) = size ∧
    (∀ x y, (newCanvas size).pix x y = transparent) ∧
    (draw_joycon_pair size).width = (newCanvas size).width ∧
    (draw_joycon_pair size).height = (newCanvas size).height := by
  refine ⟨?_, ?_, fun x y => rfl, rfl, rfl⟩ <;>
    simp [newCanvas, Int.toNat_of_nonneg h.le]

/-- C4 (witness): the canvas allocated for size 18. -/
theorem c4_canvas_allocation_witness :
    0 < (18 : ℤ) ∧
    (((newCanvas 18).width : ℤ) = 18 ∧
     ((newCanvas 18).height : ℤ) = 18 ∧
     (∀ x y, (newCanvas 18).pix x y = transparent) ∧
     (draw_joycon_pair 18).width = (newCanvas 18).width ∧
     (draw_joycon_pair 18).height = (newCanvas 18).height) :=
  ⟨by decide, c4_canvas_allocation 18 (by decide)⟩

/-- C7 (counterexample): the original claim fails at size −10^400 — there
the source line `scale = size / 18` itself raises OverflowError (the
quotient overflows the double range), before any drawing or saving, on
account of the size value. -/
theorem c7_overflow_counterexample : scaleStep (-(10 ^ 400)) = none := by
  have h : ¬ |(-(10 ^ 400) : ℤ)| < 18 * (2 ^ 1024 - 2 ^ 970) := by
    rw [abs_neg, abs_of_nonneg (by positivity)]
    push_neg
    norm_num
  rw [scaleStep, if_neg h]

/-- C7 (amended): the script validates nothing — for every non-positive
size whose magnitude stays below the float-division overflow threshold
18 · (2^1024 − 2^970), the scale division succeeds, the layout is still
computed, and the result is degenerate geometry (non-positive body width
and height) and an empty canvas, rather than any reported error; at or
beyond the threshold the division itself raises OverflowError (see the
counterexample). -/
theorem c7_no_validation_degenerate (size : ℤ) (h : size ≤ 0)
    (hb : -(18 * (2 ^ 1024 - 2 ^ 970)) < size) :
    scaleStep size = some (scaleQ size) ∧
    jc_width size ≤ 0 ∧ jc_height size ≤ 0 ∧
    (draw_joycon_pair size).width = 0 ∧ (draw_joycon_pair size).height = 0 := by
  have hs : (size : ℚ) / 18 ≤ 0 := by
    apply div_nonpos_of_nonpos_of_nonneg _ (by norm_num)
    exact_mod_cast h
  have key : ∀ k : ℚ, 0 ≤ k → pyInt (k * ((size : ℚ) / 18)) ≤ 0 := by
    intro k hk
    have hq : k * ((size : ℚ) / 18) ≤ 0 := mul_nonpos_iff.mpr (Or.inl ⟨hk, hs⟩)
    unfold pyInt
    split
    · calc ⌊k * ((size : ℚ) / 18)⌋ ≤ ⌊(0 : ℚ)⌋ := Int.floor_le_floor hq
        _ = 0 := by norm_num
    · exact Int.ceil_le.mpr (by exact_mod_cast hq)
  have hw : (draw_joycon_pair size).width = size.toNat := rfl
  have hh : (draw_joycon_pair size).height = size.toNat := rfl
  have habs : |size| < 18 * (2 ^ 1024 - 2 ^ 970) := by
    rw [abs_of_nonpos h]
    exact neg_lt.mp hb
  refine ⟨?_, ?_, ?_, ?_, ?_⟩
  · rw [scaleStep, if_pos habs]
  · exact key 6 (by norm_num)
  · exact key 14 (by norm_num)
  · rw [hw]
    exact Int.toNat_of_nonpos h
  · rw [hh]
    exact Int.toNat_of_nonpos h

/-- C7 (witness): size −5 is within the overflow threshold and yields a
successful scale division, degenerate geometry and an empty canvas. -/
theorem c7_no_validation_degenerate_witness :
    (-5 : ℤ) ≤ 0 ∧ -(18 * (2 ^ 1024 - 2 ^ 970)) < (-5 : ℤ) ∧
    (scaleStep (-5) = some (scaleQ (-5)) ∧
     jc_width (-5) ≤ 0 ∧ jc_height (-5) ≤ 0 ∧
     (draw_joycon_pair (-5)).width = 0 ∧ (draw_joycon_pair (-5)).height = 0) :=
  ⟨by decide, by norm_num, c7_no_validation_degenerate (-5) (by decide) (by norm_num)⟩

/-- C9: at size 18 the finished canvas contains strictly more than zero
pixels whose alpha channel is positive — the bodies are not entirely
erased by the cutouts (the count is in fact 150). -/
theorem c9_nonempty_render : 0 < nonTransparentCount (draw_joycon_pair 18) := by
  simp only [draw_joycon_pair, btn_center_x_18, btn_center_y_18, btn_size_18,
    btn_offset_18, right_stick_x_18, right_stick_y_18, stick_radius_18,
    left_btn_center_x_18, left_btn_center_y_18, left_stick_x_18,
    left_stick_y_18, right_x_18, left_x_18, start_y_18, jc_width_18,
    jc_height_18, corner_radius_18]
  decide

lemma fillEllipse_pix_boc {x0 y0 x1 y1 x y : ℤ} {f : Pixel} {c : Canvas}
    (hf : blackOrClear f) (hc : blackOrClear (c.pix x y)) :
    blackOrClear ((fillEllipse x0 y0 x1 y1 f c).pix x y) := by
  simp only [fillEllipse]
  split
  · exact hf
  · exact hc

lemma fillRoundedRect_pix_boc {x0 y0 x1 y1 r x y : ℤ} {f : Pixel} {c : Canvas}
    (hf : blackOrClear f) (hc : blackOrClear (c.pix x y)) :
    blackOrClear ((fillRoundedRect x0 y0 x1 y1 r f c).pix x y) := by
  simp only [fillRoundedRect]
  split
  · exact hf
  · exact hc

lemma drawButtons_pix_boc {cx cy bs bo x y : ℤ} {c : Canvas}
    (hc : blackOrClear (c.pix x y)) :
    blackOrClear ((drawButtons cx cy bs bo c).pix x y) := by
  simp only [drawButtons, btnOffsets, List.foldl_cons, List.foldl_nil]
  exact fillEllipse_pix_boc (Or.inl rfl) (fillEllipse_pix_boc (Or.inl rfl)
    (fillEllipse_pix_boc (Or.inl rfl) (fillEllipse_pix_boc (Or.inl rfl) hc)))

/-- C10: for every positive size, every pixel of the finished canvas is
either fully transparent (0,0,0,0) or opaque black (0,0,0,255) — the only
fills are opaque black and zero-alpha black and there is no blending. -/
theorem c10_two_colors (size : ℤ) (h : 0 < size) (x y : ℤ) :
    blackOrClear ((draw_joycon_pair size).pix x y) := by
  rw [draw_joycon_pair]
  exact drawButtons_pix_boc (fillEllipse_pix_boc (Or.inl rfl)
    (drawButtons_pix_boc (fillEllipse_pix_boc (Or.inl rfl)
      (fillRoundedRect_pix_boc (Or.inr rfl)
        (fillRoundedRect_pix_boc (Or.inr rfl) (Or.inl rfl))))))

/-- C10 (witness): the pixel (0, 0) of the size-18 canvas is one of the
two permitted colors. -/
theorem c10_two_colors_witness :
    0 < (18 : ℤ) ∧ blackOrClear ((draw_joycon_pair 18).pix 0 0) :=
  ⟨by decide, c10_two_colors 18 (by decide) 0 0⟩
